import Mathlib

/-!
Verification of the flavorlens analytics API's derived-metrics layer:
classification thresholds, growth sentinels, percentage/null handling,
distinct-dish counting, the query-result cache, and the seasonal
distribution invariant. Each definition is a shallow embedding of the
corresponding SQL CASE expression or Python function from the source;
definitions whose name starts with `claim` instead transcribe the
specification's wording, for comparison against the embedded code.
-/

namespace Flavorlens

/-- SQL ROUND(x, d): round half away from zero to `d` decimal places,
over exact rationals. -/
def sqlRound (d : Nat) (x : ℚ) : ℚ :=
  let m : ℚ := (10 : ℚ) ^ d
  if 0 ≤ x then (⌊x * m + 1 / 2⌋ : ℚ) / m
  else -((⌊-x * m + 1 / 2⌋ : ℚ) / m)

/-- Case-insensitive substring test on char lists (the `%pattern%` of
SQL ILIKE). -/
def charsContain (needle hay : List Char) : Bool :=
  match hay with
  | [] => needle.isEmpty
  | _ :: tl => needle.isPrefixOf hay || charsContain needle tl

/-- Lower-case a string character-wise (SQL LOWER / case folding of
ILIKE). -/
def lowerChars (s : String) : List Char :=
  s.toList.map Char.toLower

/-- Strip leading and trailing whitespace (SQL TRIM). -/
def trimChars (s : String) : List Char :=
  ((s.toList.dropWhile Char.isWhitespace).reverse.dropWhile Char.isWhitespace).reverse

/-- `field ILIKE '%pat%'`: case-insensitive containment. -/
def ilikeContains (field pat : String) : Bool :=
  charsContain (lowerChars pat) (lowerChars field)

/-! ## Penetration status classifier
From `category_penetration_router.py`, the `status` CASE expression of
`category_penetration_query` (computed on the per-category counts
`older` and `recent` of the `growth_data` CTE). -/

/-- The status CASE of `category_penetration_query`:
`WHEN older = 0 AND recent > 0 THEN 'Hot' WHEN older = 0 THEN 'New'
WHEN recent > older * 1.25 THEN 'Hot' WHEN recent > older * 1.1 THEN
'Rising' WHEN recent >= older * 0.9 THEN 'Stable' ELSE 'Declining'`. -/
def penetrationStatus (older recent : Nat) : String :=
  if older = 0 ∧ recent > 0 then "Hot"
  else if older = 0 then "New"
  else if (recent : ℚ) > (older : ℚ) * 1.25 then "Hot"
  else if (recent : ℚ) > (older : ℚ) * 1.1 then "Rising"
  else if (recent : ℚ) ≥ (older : ℚ) * 0.9 then "Stable"
  else "Declining"

/-- The threshold mapping exactly as the specification words it (claim
C1): `previous == 0 and current > 0` → Hot; otherwise `current >
previous * 1.25` → Hot; `current > previous * 1.10` → Rising;
`current >= previous * 0.90` → Stable; otherwise Declining. -/
def claimPenetrationStatus (older recent : Nat) : String :=
  if older = 0 ∧ recent > 0 then "Hot"
  else if (recent : ℚ) > (older : ℚ) * 1.25 then "Hot"
  else if (recent : ℚ) > (older : ℚ) * 1.1 then "Rising"
  else if (recent : ℚ) ≥ (older : ℚ) * 0.9 then "Stable"
  else "Declining"

/-- Bucket order used to state monotonicity of the classifier. -/
def statusRank (s : String) : Nat :=
  if s = "Hot" then 3
  else if s = "Rising" then 2
  else if s = "Stable" then 1
  else 0

/-! ## Lifecycle phase classifier
From `phase_router.py`: the Python function `classify_lifecycle_phase`
and the SQL `yoy_growth_percent` CASE of `phase_query`. -/

/-- The closed enumeration `LifecyclePhase` of `phase_router.py`. -/
inductive LifecyclePhase where
  | emerging
  | growing
  | mature
  | declining
deriving DecidableEq, Repr

/-- Render a rational with one decimal place (Python `f"{x:.1f}"`,
with half rounded away from zero). -/
def fmt1 (x : ℚ) : String :=
  let n : Int := Rat.floor (sqlRound 1 x * 10)
  let sign := if n < 0 then "-" else ""
  let m := n.natAbs
  sign ++ toString (m / 10) ++ "." ++ toString (m % 10)

/-- `classify_lifecycle_phase(previous_year_count, current_year_count,
yoy_growth_percent)` from `phase_router.py`, returning the phase and the
description string. -/
def classifyLifecyclePhase (previousYearCount currentYearCount : Nat)
    (yoyGrowthPercent : Option ℚ) : LifecyclePhase × String :=
  if previousYearCount = 0 ∧ currentYearCount > 0 then
    (.emerging,
      "New ingredient appearing in " ++ toString currentYearCount
        ++ " dishes this year")
  else if yoyGrowthPercent = none ∧ previousYearCount = 0 ∧ currentYearCount = 0 then
    (.emerging, "Ingredient not yet present in dataset")
  else if yoyGrowthPercent = none ∧ currentYearCount = 0 then
    (.declining, "Ingredient no longer appearing in dishes")
  else
    match yoyGrowthPercent with
    | some g =>
        if g > 20 then
          (.growing, "Strong growth of " ++ fmt1 g ++ "% year-over-year")
        else if g < -20 then
          (.declining, "Significant decline of " ++ fmt1 g ++ "% year-over-year")
        else
          (.mature, "Stable with " ++ fmt1 g ++ "% year-over-year change")
    | none => (.mature, "Stable ingredient with consistent presence")

/-- The `yoy_growth_percent` CASE of `phase_query`: NULL when the
previous-year count is 0, otherwise
`ROUND((current - previous) * 100.0 / previous, 2)`. -/
def derivedYoy (previous current : Nat) : Option ℚ :=
  if previous = 0 then none
  else some (sqlRound 2 (((current : ℚ) - (previous : ℚ)) * 100 / (previous : ℚ)))

/-- The lifecycle mapping exactly as the specification words it (claim
C2): `previous_count == 0 and current_count > 0` → Emerging;
`current_count == 0` → Declining; `yoy > 20` → Growing; `yoy < -20` →
Declining; otherwise Mature. -/
def claimLifecyclePhase (previous current : Nat) (yoy : Option ℚ) : LifecyclePhase :=
  if previous = 0 ∧ current > 0 then .emerging
  else if current = 0 then .declining
  else
    match yoy with
    | some g => if g > 20 then .growing else if g < -20 then .declining else .mature
    | none => .mature

/-! ## Year-over-year growth computations (claim C3)
The `growth_rate` CASE of `pairings_router.py`, the `growth` CASE of
`category_penetration_router.py`, and the `growth` CASE of the
penetration query in `category_analysis_router.py`. -/

/-- SQL `x > 0` under three-valued logic: NULL compares to false. -/
def sqlGtZero (x : Option ℚ) : Bool :=
  match x with
  | some v => v > 0
  | none => false

/-- The `growth_rate` CASE of `pairings_router.py` on the previous- and
current-year penetrations (either may be NULL):
`WHEN prev IS NULL OR prev = 0 THEN (CASE WHEN curr > 0 THEN 100.0 ELSE
0.0 END) ELSE ROUND(((curr - prev) / prev) * 100, 1)`. -/
def pairingsGrowthRate (prevPen currPen : Option ℚ) : Option ℚ :=
  match prevPen with
  | none => some (if sqlGtZero currPen then 100 else 0)
  | some p =>
      if p = 0 then some (if sqlGtZero currPen then 100 else 0)
      else
        match currPen with
        | some c => some (sqlRound 1 ((c - p) / p * 100))
        | none => none

/-- The `growth` CASE of `category_penetration_query` in
`category_penetration_router.py`:
`WHEN older = 0 AND recent > 0 THEN 50.0 WHEN older = 0 THEN 0.0 ELSE
ROUND((recent - older) * 100.0 / NULLIF(older, 0), 1)`. -/
def penetrationGrowth (older recent : Nat) : ℚ :=
  if older = 0 ∧ recent > 0 then 50
  else if older = 0 then 0
  else sqlRound 1 (((recent : ℚ) - (older : ℚ)) * 100 / (older : ℚ))

/-- The `growth` CASE of the penetration query in
`category_analysis_router.py`, on the counts `total_previous`,
`ingredient_previous`, `total_current`, `ingredient_current`. -/
def analysisPenGrowth (totalPrev ingPrev totalCur ingCur : Nat) : ℚ :=
  sqlRound 1
    (if totalPrev = 0 ∨ ingPrev = 0 then (if ingCur > 0 then 100 else 0)
     else if totalCur = 0 then 0
     else (ingCur : ℚ) * 100 / (totalCur : ℚ) - (ingPrev : ℚ) * 100 / (totalPrev : ℚ))

/-! ## Dataset model and dish-count aggregations (claims C4, C5, C6)
A row of the `ingredient_details` table: one row per (dish, ingredient)
occurrence, so a dish may have several rows. -/

/-- One row of `ingredient_details`. `generalCategory` and `season` are
nullable columns. -/
structure IngredientRow where
  dishId : Nat
  ingredientName : String
  generalCategory : Option String
  year : Int
  season : Option String
  source : String
deriving DecidableEq, Repr

/-- `ingredient_name ILIKE '%ingredient%'`. -/
def matchesIngredient (r : IngredientRow) (ingredient : String) : Bool :=
  ilikeContains r.ingredientName ingredient

/-- Number of distinct values in a list (SQL COUNT(DISTINCT _)). -/
def countDistinct (l : List Nat) : Nat := l.dedup.length

/-- The `category_counts` CTE of `category_penetration_query`
(active version): `COUNT(*)` of the rows matching the ingredient in the
given category — raw rows, not distinct dishes. -/
def categoryIngredientCount (db : List IngredientRow) (ingredient cat : String) : Nat :=
  (db.filter (fun r => matchesIngredient r ingredient && r.generalCategory == some cat)).length

/-- Distinct dishes matching the ingredient in the given category (what
`COUNT(DISTINCT dish_id)` would produce over the same rows). -/
def categoryIngredientDishCount (db : List IngredientRow) (ingredient cat : String) : Nat :=
  countDistinct ((db.filter
    (fun r => matchesIngredient r ingredient && r.generalCategory == some cat)).map (·.dishId))

/-- The `total_counts` CTE of `category_penetration_query`:
`COUNT(*)` of all rows in the category. -/
def categoryTotalCount (db : List IngredientRow) (cat : String) : Nat :=
  (db.filter (fun r => r.generalCategory == some cat)).length

/-- The `recent` count of the `growth_data` CTE: rows matching the
ingredient in the category whose dish year is `>= CURRENT_YEAR - 1`. -/
def growthRecentCount (db : List IngredientRow) (ingredient cat : String)
    (currentYear : Int) : Nat :=
  (db.filter (fun r => matchesIngredient r ingredient && r.generalCategory == some cat
    && currentYear - 1 ≤ r.year)).length

/-- The `older` count of the `growth_data` CTE: rows matching the
ingredient in the category whose dish year is `= CURRENT_YEAR - 2`. -/
def growthOlderCount (db : List IngredientRow) (ingredient cat : String)
    (currentYear : Int) : Nat :=
  (db.filter (fun r => matchesIngredient r ingredient && r.generalCategory == some cat
    && r.year == currentYear - 2)).length

/-- The inner per-year count of `phase_query` in `phase_router.py`:
`COUNT(DISTINCT dish_id) FILTER (WHERE ingredient_name ILIKE pattern
AND source = src)` among the rows of one year. -/
def phaseIngredientDishCount (db : List IngredientRow) (ingredient src : String)
    (y : Int) : Nat :=
  countDistinct ((db.filter (fun r => r.year == y && matchesIngredient r ingredient
    && r.source == src)).map (·.dishId))

/-! ## Percentage computation and its caller-side mapping (claim C5) -/

/-- The `penetration` column of `category_penetration_query`:
`ROUND(ingredient_count * 100.0 / NULLIF(total_count, 0), 1)` — NULL
when the total is zero. -/
def penetrationPct (ingredientCount totalCount : Nat) : Option ℚ :=
  if totalCount = 0 then none
  else some (sqlRound 1 ((ingredientCount : ℚ) * 100 / (totalCount : ℚ)))

/-- The row mapping of `get_category_penetration`:
`float(row["penetration"]) if row["penetration"] is not None else 0.0`. -/
def rowPenetrationValue (penetration : Option ℚ) : ℚ := penetration.getD 0

/-- The row mapping of `get_category_penetration` for the growth field:
`float(row["growth"]) if row["growth"] is not None else 0.0`. -/
def rowGrowthValue (growth : Option ℚ) : ℚ := growth.getD 0

/-! ## Endpoint-level models for empty-result behaviour (claim C6) -/

/-- Categories appearing among the rows that match the ingredient (the
groups of the `category_counts` / `overall_counts` CTEs). -/
def matchingCategories (db : List IngredientRow) (ingredient : String) : List String :=
  ((db.filter (fun r => matchesIngredient r ingredient && r.generalCategory.isSome)).filterMap
    (·.generalCategory)).dedup

/-- One response record of `/category-penetration` (the `color` field,
a palette constant, is omitted). -/
structure CategoryPenetrationRec where
  name : String
  penetration : ℚ
  growth : ℚ
  status : String
deriving DecidableEq, Repr

/-- The rows of `category_penetration_query` mapped through
`get_category_penetration`: one record per category with a matching
row, combining the CTE counts (`ORDER BY`/`LIMIT 10` only reorder and
truncate the list and are not modelled). -/
def categoryPenetrationResult (db : List IngredientRow) (ingredient : String)
    (currentYear : Int) : List CategoryPenetrationRec :=
  (matchingCategories db ingredient).map (fun cat =>
    let older := growthOlderCount db ingredient cat currentYear
    let recent := growthRecentCount db ingredient cat currentYear
    { name := cat
      penetration := rowPenetrationValue
        (penetrationPct (categoryIngredientCount db ingredient cat) (categoryTotalCount db cat))
      growth := penetrationGrowth older recent
      status := penetrationStatus older recent })

/-- `get_category_penetration` HTTP outcome: the router has no 404
branch — an ingredient with no matching rows yields status 200 with an
empty `categories` list. -/
def categoryPenetrationHttp (db : List IngredientRow) (ingredient : String)
    (currentYear : Int) : Nat × List CategoryPenetrationRec :=
  (200, categoryPenetrationResult db ingredient currentYear)

/-- Groups of the penetration query of `category_analysis_router.py`:
categories of matching rows that also appear in `total_category_counts`
(the inner JOIN). -/
def analysisPenCategories (db : List IngredientRow) (ingredient : String) : List String :=
  (matchingCategories db ingredient).filter
    (fun cat => db.any (fun r => r.generalCategory == some cat))

/-- `get_category_analysis` HTTP status: raises 404 when either the
distribution rows or the penetration rows are empty
(`if not dist_result["rows"] or not pen_result["rows"]`). -/
def categoryAnalysisHttpStatus (db : List IngredientRow) (ingredient : String) : Nat :=
  if (matchingCategories db ingredient).isEmpty
      || (analysisPenCategories db ingredient).isEmpty then 404
  else 200

/-! ## Parameter validation (claim C7) -/

/-- The `sort_mapping` dictionary of `get_ingredient_pairings`. -/
def sortMapping : List (String × String) :=
  [("share_percent", "gc.share_percentage"),
   ("growth", "gc.growth_rate"),
   ("appeal_score", "gc.appeal_score"),
   ("dominant_ingredient_percent", "base_dominant_percent"),
   ("title", "gc.paired_ingredient")]

/-- `sort_mapping.get(sort_by, "gc.share_percentage")`: an unknown
`sort_by` silently falls back to the default column. -/
def pairingsSortColumn (sortBy : String) : String :=
  (sortMapping.lookup sortBy).getD "gc.share_percentage"

/-- The `source` validation of `get_ingredient_phase`:
`if source not in ["recipe", "menu"]: raise HTTPException(400,
"Source must be 'recipe' or 'menu'")`. -/
def phaseSourceCheck (source : String) : Option (Nat × String) :=
  if source = "recipe" ∨ source = "menu" then none
  else some (400, "Source must be 'recipe' or 'menu'")

/-! ## Query Executor and Result Cache (claims C8, C9)
From `database/connection.py`, `DatabaseConnection.execute_query`. The
row-dictionary conversion, column names and wall-clock timing fields
are not modelled; the engine is a function from (query, params) to
either rows or an error. The MD5 digest of the cache key is modelled by
the digested content itself (both are deterministic functions of query
text and serialized parameters). -/

/-- The normalized result shape (`rows` plus `row_count`). -/
structure QueryResult (Row : Type) where
  rows : List Row
  rowCount : Nat
deriving DecidableEq, Repr

/-- A cache entry: `{"data": ..., "timestamp": ms}`. -/
structure CacheEntry (Row : Type) where
  data : QueryResult Row
  timestamp : Int
deriving DecidableEq, Repr

/-- Mutable state of `DatabaseConnection`: the lazily-established
connection handle and the cache dictionary (modelled as an association
list). -/
structure DBState (Row : Type) where
  connection : Option Unit
  cache : List (String × CacheEntry Row)
deriving DecidableEq, Repr

/-- `_generate_cache_key`: deterministic digest of
`f"{query}:{str(params)}"`. -/
def generateCacheKey (query : String) (params : List String) : String :=
  query ++ ":" ++ toString params

/-- `_is_cache_valid`: `(current_time - entry.timestamp) < ttl`. -/
def isCacheValid {Row : Type} (entry : CacheEntry Row) (ttl nowMs : Int) : Bool :=
  nowMs - entry.timestamp < ttl

/-- Python dict assignment `self.cache[key] = entry`. -/
def cacheStore {Row : Type} (c : List (String × CacheEntry Row)) (k : String)
    (e : CacheEntry Row) : List (String × CacheEntry Row) :=
  (k, e) :: c.filter (fun p => p.1 != k)

/-- Python `del self.cache[key]`. -/
def cacheDelete {Row : Type} (c : List (String × CacheEntry Row)) (k : String) :
    List (String × CacheEntry Row) :=
  c.filter (fun p => p.1 != k)

/-- Outcome of one `execute_query` call: the returned value or the
propagated exception, the post-call state, and how many times the
underlying engine was invoked. -/
structure ExecOutcome (Row : Type) where
  result : Except String (QueryResult Row)
  state : DBState Row
  engineCalls : Nat

/-- The post-lookup part of `execute_query`: lazily connect, run the
engine once, and on success store the result when caching applies. On
error the exception is re-raised unchanged and no further state is
touched. -/
def runQueryFresh {Row : Type} (enableCaching : Bool)
    (engine : String → List String → Except String (List Row))
    (nowMs : Int) (query : String) (params : List String)
    (cacheable : Bool) (s : DBState Row) : ExecOutcome Row :=
  let connected : DBState Row := ⟨some (), s.cache⟩
  match engine query params with
  | .error e => ⟨.error e, connected, 1⟩
  | .ok rows =>
      let result : QueryResult Row := ⟨rows, rows.length⟩
      let cache' :=
        if enableCaching && cacheable then
          cacheStore connected.cache (generateCacheKey query params) ⟨result, nowMs⟩
        else connected.cache
      ⟨.ok result, ⟨some (), cache'⟩, 1⟩

/-- `DatabaseConnection.execute_query`: cache lookup (return a fresh
entry without executing; delete a stale one), then execute and store. -/
def executeQuery {Row : Type} (enableCaching : Bool)
    (engine : String → List String → Except String (List Row))
    (nowMs : Int) (query : String) (params : List String)
    (cacheable : Bool) (ttl : Int) (s : DBState Row) : ExecOutcome Row :=
  let key := generateCacheKey query params
  match (if enableCaching && cacheable then s.cache.lookup key else none) with
  | some entry =>
      if isCacheValid entry ttl nowMs then
        ⟨.ok entry.data, s, 0⟩
      else
        runQueryFresh enableCaching engine nowMs query params cacheable
          ⟨s.connection, cacheDelete s.cache key⟩
  | none => runQueryFresh enableCaching engine nowMs query params cacheable s

/-! ## Seasonal distribution (claim C10)
From `season_router.py`: `seasonal_query` and the distribution build of
`get_season_distribution`. -/

/-- The five fixed seasons of the `all_seasons` CTE, in the `ORDER BY`
output order Spring, Summer, Fall, Winter, All-Season. -/
def seasonNames : List String := ["Spring", "Summer", "Fall", "Winter", "All-Season"]

/-- The season normalization CASE (`LOWER(TRIM(season))` matched
against the five known names; anything else is NULL). -/
def normalizeSeason (s : String) : Option String :=
  let t := (trimChars s).map Char.toLower
  if t = "spring".toList then some "Spring"
  else if t = "summer".toList then some "Summer"
  else if t = "fall".toList then some "Fall"
  else if t = "winter".toList then some "Winter"
  else if t = "all-season".toList then some "All-Season"
  else none

/-- `season IS NOT NULL AND TRIM(season) != ''`. -/
def hasSeasonData (r : IngredientRow) : Bool :=
  match r.season with
  | some s => !(trimChars s).isEmpty
  | none => false

/-- Rows matching the ingredient that carry season data. -/
def seasonedMatchingRows (db : List IngredientRow) (ingredient : String) :
    List IngredientRow :=
  db.filter (fun r => matchesIngredient r ingredient && hasSeasonData r)

/-- The `seasoned_ingredient_dishes` CTE: distinct dishes with season
data containing the ingredient. -/
def totalSeasonedDishes (db : List IngredientRow) (ingredient : String) : Nat :=
  countDistinct ((seasonedMatchingRows db ingredient).map (·.dishId))

/-- The `ingredient_by_season` CTE: distinct dishes per normalized
season label. -/
def seasonDishCount (db : List IngredientRow) (ingredient label : String) : Nat :=
  countDistinct (((seasonedMatchingRows db ingredient).filter
    (fun r => r.season.bind normalizeSeason == some label)).map (·.dishId))

/-- The rows of `seasonal_query`: one per fixed season, with
`value = ROUND(COALESCE(dishes, 0) * 100.0 /
NULLIF(total_seasoned_dishes, 0), 2)` (NULL when no dish has season
data). -/
def seasonQueryRows (db : List IngredientRow) (ingredient : String) :
    List (String × Option ℚ) :=
  seasonNames.map (fun name =>
    (name,
      if totalSeasonedDishes db ingredient = 0 then none
      else some (sqlRound 2 ((seasonDishCount db ingredient name : ℚ) * 100
        / (totalSeasonedDishes db ingredient : ℚ)))))

/-- The distribution built by `get_season_distribution`:
`value=float(row["value"] or 0.0)` — Python `or` maps both NULL and 0.0
to 0.0, which coincides with `Option.getD 0` on exact rationals. -/
def seasonDistribution (db : List IngredientRow) (ingredient : String) :
    List (String × ℚ) :=
  (seasonQueryRows db ingredient).map (fun p => (p.1, p.2.getD 0))

/-! ## Helper lemmas about SQL rounding -/

theorem floor_intCast_add_half (z : ℤ) : ⌊(z : ℚ) + 1 / 2⌋ = z := by
  have h : ⌊(1 / 2 : ℚ)⌋ = 0 := by
    rw [Int.floor_eq_zero_iff]
    constructor <;> norm_num
  rw [add_comm, Int.floor_add_int, h, zero_add]

theorem sqlRound_intCast (d : Nat) (n : ℤ) : sqlRound d ((n : ℚ)) = n := by
  unfold sqlRound
  have hm : (0 : ℚ) < (10 : ℚ) ^ d := by positivity
  rcases le_or_lt 0 (n : ℚ) with h | h
  · rw [if_pos h]
    have hcast : (n : ℚ) * (10 : ℚ) ^ d = ((n * 10 ^ d : ℤ) : ℚ) := by push_cast; ring
    rw [hcast, floor_intCast_add_half]
    push_cast
    field_simp
  · rw [if_neg (not_le.mpr h)]
    have hcast : -(n : ℚ) * (10 : ℚ) ^ d = ((-n * 10 ^ d : ℤ) : ℚ) := by push_cast; ring
    rw [hcast, floor_intCast_add_half]
    push_cast
    field_simp

theorem sqlRound_natCast (d n : Nat) : sqlRound d ((n : ℚ)) = n := by
  have h := sqlRound_intCast d (n : ℤ)
  push_cast at h
  exact h

theorem sqlRound_nonneg (d : Nat) (x : ℚ) (hx : 0 ≤ x) : 0 ≤ sqlRound d x := by
  unfold sqlRound
  rw [if_pos hx]
  apply div_nonneg _ (by positivity)
  have h : (0 : ℤ) ≤ ⌊x * (10 : ℚ) ^ d + 1 / 2⌋ := Int.le_floor.mpr (by positivity)
  exact_mod_cast h

theorem sqlRound_le_natCast (d : Nat) (x : ℚ) (n : ℕ) (hx : 0 ≤ x)
    (h : x ≤ (n : ℚ)) : sqlRound d x ≤ n := by
  unfold sqlRound
  rw [if_pos hx]
  have hm : (0 : ℚ) < (10 : ℚ) ^ d := by positivity
  rw [div_le_iff₀ hm]
  have hfl : ⌊x * (10 : ℚ) ^ d + 1 / 2⌋ ≤ ⌊((n * 10 ^ d : ℤ) : ℚ) + 1 / 2⌋ := by
    apply Int.floor_le_floor
    have : x * (10 : ℚ) ^ d ≤ (n : ℚ) * (10 : ℚ) ^ d :=
      mul_le_mul_of_nonneg_right h (le_of_lt hm)
    push_cast
    linarith
  rw [floor_intCast_add_half] at hfl
  have : ((⌊x * (10 : ℚ) ^ d + 1 / 2⌋ : ℤ) : ℚ) ≤ ((n * 10 ^ d : ℤ) : ℚ) := by
    exact_mod_cast hfl
  push_cast at this ⊢
  linarith

/-! ## Claim C1: penetration status classifier -/

theorem statusRank_le_three (s : String) : statusRank s ≤ 3 := by
  simp only [statusRank]
  split
  · exact le_refl 3
  · split
    · omega
    · split <;> omega

theorem penetrationStatus_pos (p c : Nat) (hp : 0 < p) :
    penetrationStatus p c =
      (if (c : ℚ) > (p : ℚ) * 1.25 then "Hot"
       else if (c : ℚ) > (p : ℚ) * 1.1 then "Rising"
       else if (c : ℚ) ≥ (p : ℚ) * 0.9 then "Stable"
       else "Declining") := by
  have h0 : ¬ p = 0 := hp.ne'
  simp only [penetrationStatus, h0, false_and, if_false]

/-- C1, counterexample: at `previous = 0, current = 0` the code's status
CASE yields `"New"`, while the threshold mapping stated by the claim
falls through to the `current >= previous * 0.90` branch and yields
`"Stable"`; the claim's mapping is therefore not the one implemented. -/
theorem C1_counterexample :
    penetrationStatus 0 0 = "New" ∧ claimPenetrationStatus 0 0 = "Stable" ∧
    ("New" : String) ≠ "Stable" := by
  refine ⟨by decide, ?_, by decide⟩
  simp only [claimPenetrationStatus]
  norm_num

/-- C1 (amended): the status CASE agrees with the claim's threshold
mapping except that `previous == 0 and current == 0` yields `"New"`;
for every fixed `previous > 0` the classification is monotone in
`current` with the 1.25/1.10/0.90 boundaries exactly as strict or
non-strict comparisons. -/
theorem C1_amended (p c c' : Nat) (hle : c ≤ c') :
    penetrationStatus p c
      = (if p = 0 ∧ c = 0 then "New" else claimPenetrationStatus p c) ∧
    (0 < p → statusRank (penetrationStatus p c) ≤ statusRank (penetrationStatus p c')) := by
  constructor
  · rcases Nat.eq_zero_or_pos p with hp | hp
    · subst hp
      rcases Nat.eq_zero_or_pos c with hc | hc
      · subst hc
        simp [penetrationStatus, claimPenetrationStatus]
      · have hcne : c ≠ 0 := hc.ne'
        simp [penetrationStatus, claimPenetrationStatus, hc, hcne]
    · have hpne : p ≠ 0 := hp.ne'
      have hcond : ¬ (p = 0 ∧ c = 0) := by simp [hpne]
      rw [if_neg hcond, penetrationStatus_pos p c hp]
      simp only [claimPenetrationStatus, hpne, false_and, if_false]
  · intro hp
    have hc : (c : ℚ) ≤ (c' : ℚ) := by exact_mod_cast hle
    rw [penetrationStatus_pos p c hp, penetrationStatus_pos p c' hp]
    by_cases h1 : (c' : ℚ) > (p : ℚ) * 1.25
    · rw [if_pos h1]
      have h3 : statusRank "Hot" = 3 := by decide
      rw [h3]
      exact statusRank_le_three _
    · have h1c : ¬ (c : ℚ) > (p : ℚ) * 1.25 := fun h => h1 (lt_of_lt_of_le h hc)
      rw [if_neg h1, if_neg h1c]
      by_cases h2 : (c' : ℚ) > (p : ℚ) * 1.1
      · rw [if_pos h2]
        split
        · decide
        · split <;> decide
      · have h2c : ¬ (c : ℚ) > (p : ℚ) * 1.1 := fun h => h2 (lt_of_lt_of_le h hc)
        rw [if_neg h2, if_neg h2c]
        by_cases h3 : (c' : ℚ) ≥ (p : ℚ) * 0.9
        · rw [if_pos h3]
          split <;> decide
        · have h3c : ¬ (c : ℚ) ≥ (p : ℚ) * 0.9 := fun h => h3 (le_trans h hc)
          rw [if_neg h3, if_neg h3c]

/-- Witness for C1 (amended) at `previous = 2, current = 1, current' = 3`. -/
theorem C1_amended_witness :
    penetrationStatus 2 1
      = (if (2 : Nat) = 0 ∧ (1 : Nat) = 0 then "New" else claimPenetrationStatus 2 1) ∧
    statusRank (penetrationStatus 2 1) ≤ statusRank (penetrationStatus 2 3) :=
  ⟨(C1_amended 2 1 3 (by decide)).1, (C1_amended 2 1 3 (by decide)).2 (by decide)⟩

/-! ## Claim C2: lifecycle phase classifier -/

theorem derivedYoy_zero_current (p : Nat) (hp : 0 < p) :
    derivedYoy p 0 = some (-100) := by
  have hpne : p ≠ 0 := hp.ne'
  have hpq : (p : ℚ) ≠ 0 := Nat.cast_ne_zero.mpr hpne
  unfold derivedYoy
  rw [if_neg hpne]
  have h1 : (((0 : Nat) : ℚ) - (p : ℚ)) * 100 / (p : ℚ) = ((-100 : ℤ) : ℚ) := by
    push_cast
    field_simp
    ring
  rw [h1, sqlRound_intCast]
  norm_num

/-- C2, counterexample: for the yearly counts `previous = 0,
current = 0` (derived yoy growth NULL) the code's
`classify_lifecycle_phase` returns Emerging ("Ingredient not yet
present in dataset"), while the claim's rule `current_count == 0` →
Declining applies (its Emerging rule requires `current_count > 0`). -/
theorem C2_counterexample :
    (classifyLifecyclePhase 0 0 (derivedYoy 0 0)).1 = LifecyclePhase.emerging ∧
    claimLifecyclePhase 0 0 (derivedYoy 0 0) = LifecyclePhase.declining ∧
    LifecyclePhase.emerging ≠ LifecyclePhase.declining := by
  refine ⟨by decide, by decide, by decide⟩

/-- C2 (amended): with the derived yoy growth of `phase_query`, the
classifier satisfies the claim's rules except that
`previous_count == 0 and current_count == 0` yields Emerging
("not yet present"), not Declining; `current_count == 0` yields
Declining only when `previous_count > 0`. The scenario
`previous_count = 0, current_count = 12` yields Emerging with a
description referencing 12 dishes. -/
theorem C2_amended (p c : Nat) :
    (classifyLifecyclePhase p c (derivedYoy p c)).1
      = (if p = 0 ∧ 0 < c then LifecyclePhase.emerging
         else if p = 0 ∧ c = 0 then LifecyclePhase.emerging
         else if c = 0 then LifecyclePhase.declining
         else
           match derivedYoy p c with
           | some g =>
               if g > 20 then LifecyclePhase.growing
               else if g < -20 then LifecyclePhase.declining
               else LifecyclePhase.mature
           | none => LifecyclePhase.mature) ∧
    (classifyLifecyclePhase 0 12 (derivedYoy 0 12)).1 = LifecyclePhase.emerging ∧
    (classifyLifecyclePhase 0 12 (derivedYoy 0 12)).2
      = "New ingredient appearing in 12 dishes this year" := by
  refine ⟨?_, by decide, by rfl⟩
  rcases Nat.eq_zero_or_pos p with hp | hp
  · subst hp
    rcases Nat.eq_zero_or_pos c with hc | hc
    · subst hc
      simp [classifyLifecyclePhase, derivedYoy]
    · simp [classifyLifecyclePhase, derivedYoy, hc, hc.ne']
  · have hpne : p ≠ 0 := hp.ne'
    rcases Nat.eq_zero_or_pos c with hc | hc
    · subst hc
      rw [derivedYoy_zero_current p hp]
      simp only [classifyLifecyclePhase, hpne, false_and, and_false, if_false,
        reduceCtorEq]
      norm_num
    · have hg : derivedYoy p c
          = some (sqlRound 2 (((c : ℚ) - (p : ℚ)) * 100 / (p : ℚ))) := by
        simp [derivedYoy, hpne]
      rw [hg]
      simp only [classifyLifecyclePhase, hpne, hc.ne', false_and, and_false,
        if_false, reduceCtorEq]
      split_ifs <;> rfl

/-! ## Claim C3: the new-item growth sentinel -/

/-- C3, counterexample: in the `growth` CASE of
`category_penetration_query`, a category with `previous = 0` and
`current = 1` is reported with growth 50.0, not the claimed sentinel
100. -/
theorem C3_counterexample :
    penetrationGrowth 0 1 = 50 ∧ (50 : ℚ) ≠ 100 := by
  constructor
  · simp [penetrationGrowth]
  · norm_num

/-- C3 (amended): the pairings `growth_rate` CASE and the
category-analysis penetration `growth` CASE report exactly the
sentinel 100 when the previous-period value is NULL/0 and the current
one is positive, but the category-penetration `growth` CASE reports
50.0 in that situation. -/
theorem C3_amended (c : ℚ) (r ingCur totalPrev totalCur : Nat)
    (hc : 0 < c) (hr : 0 < r) (hic : 0 < ingCur) :
    pairingsGrowthRate none (some c) = some 100 ∧
    pairingsGrowthRate (some 0) (some c) = some 100 ∧
    analysisPenGrowth totalPrev 0 totalCur ingCur = 100 ∧
    penetrationGrowth 0 r = 50 := by
  refine ⟨?_, ?_, ?_, ?_⟩
  · simp [pairingsGrowthRate, sqlGtZero, hc]
  · simp [pairingsGrowthRate, sqlGtZero, hc]
  · have h100 : sqlRound 1 ((100 : ℚ)) = 100 := by
      have h := sqlRound_natCast 1 100
      push_cast at h
      exact h
    simp only [analysisPenGrowth, or_true, if_pos, hic, if_true]
    simpa [hic] using h100
  · simp [penetrationGrowth, hr]

/-- Witness for C3 (amended) at concrete inputs. -/
theorem C3_amended_witness :
    pairingsGrowthRate none (some 1) = some 100 ∧
    pairingsGrowthRate (some 0) (some 1) = some 100 ∧
    analysisPenGrowth 3 0 4 2 = 100 ∧
    penetrationGrowth 0 1 = 50 :=
  C3_amended 1 1 2 3 4 one_pos (by decide) (by decide)

/-! ## Claim C4: distinct-dish counting -/

/-- A dataset in which one dish (`dish_id = 1`) has two ingredient rows
both matching the pattern `%pepper%` in the same category. -/
def c4db : List IngredientRow :=
  [⟨1, "black pepper", some "Snacks", 2024, none, "recipe"⟩,
   ⟨1, "pepper flakes", some "Snacks", 2024, none, "recipe"⟩]

/-- C4, counterexample: the `category_counts` CTE of
`category_penetration_query` uses `COUNT(*)`, so a single dish with two
matching ingredient rows contributes 2 to `ingredient_count`, while the
distinct-dish count of the same rows is 1. -/
theorem C4_counterexample :
    categoryIngredientCount c4db "pepper" "Snacks" = 2 ∧
    categoryIngredientDishCount c4db "pepper" "Snacks" = 1 := by
  constructor <;> rfl

/-- C4 (amended): `phase_query` counts distinct dish identifiers — a
duplicated matching row for an already-counted dish leaves its
per-year dish count unchanged — but the `category_counts` CTE of
`category_penetration_query` counts raw rows, so the same duplication
increments `ingredient_count` by 1. -/
theorem C4_amended (db : List IngredientRow) (ingredient src cat : String)
    (y : Int) (r : IngredientRow) (hmem : r ∈ db) (hy : r.year = y)
    (hm : matchesIngredient r ingredient = true) (hs : r.source = src)
    (hcat : r.generalCategory = some cat) :
    phaseIngredientDishCount (r :: db) ingredient src y
      = phaseIngredientDishCount db ingredient src y ∧
    categoryIngredientCount (r :: db) ingredient cat
      = categoryIngredientCount db ingredient cat + 1 := by
  have hpredPhase :
      (r.year == y && matchesIngredient r ingredient && r.source == src) = true := by
    simp [hy, hm, hs]
  have hpredCat :
      (matchesIngredient r ingredient && r.generalCategory == some cat) = true := by
    simp [hm, hcat]
  constructor
  · unfold phaseIngredientDishCount countDistinct
    simp only [List.filter_cons, hpredPhase, if_true, List.map_cons]
    rw [List.dedup_cons_of_mem]
    exact List.mem_map.mpr
      ⟨r, List.mem_filter.mpr ⟨hmem, hpredPhase⟩, rfl⟩
  · unfold categoryIngredientCount
    simp only [List.filter_cons, hpredCat, if_true, List.length_cons]

/-- Witness for C4 (amended): duplicating the first row of `c4db`. -/
theorem C4_amended_witness :
    phaseIngredientDishCount
        (⟨1, "black pepper", some "Snacks", 2024, none, "recipe"⟩ :: c4db)
        "pepper" "recipe" 2024
      = phaseIngredientDishCount c4db "pepper" "recipe" 2024 ∧
    categoryIngredientCount
        (⟨1, "black pepper", some "Snacks", 2024, none, "recipe"⟩ :: c4db)
        "pepper" "Snacks"
      = categoryIngredientCount c4db "pepper" "Snacks" + 1 :=
  C4_amended c4db "pepper" "recipe" "Snacks" 2024
    ⟨1, "black pepper", some "Snacks", 2024, none, "recipe"⟩
    (by decide) rfl (by decide) rfl rfl

/-! ## Claim C5: zero-total percentages -/

/-- C5, counterexample: the SQL side does yield NULL for a zero total,
but the row mapping of `get_category_penetration` coerces that NULL to
0.0 — the same value as a genuine 0 % penetration — so the caller
treats a null percentage as zero, not as "insufficient data". -/
theorem C5_counterexample :
    penetrationPct 3 0 = none ∧
    rowPenetrationValue (penetrationPct 3 0) = 0 ∧
    rowPenetrationValue (penetrationPct 3 0) = rowPenetrationValue (some 0) := by
  refine ⟨rfl, rfl, rfl⟩

/-- C5 (amended): a zero total yields a NULL percentage from the SQL
expression (never an exception or a value), and any non-NULL percentage
with `count ≤ total` lies in [0, 100]; however the Python row mapping
maps NULL to 0.0 rather than keeping it distinguishable as
"insufficient data". -/
theorem C5_amended (c t : Nat) (hct : c ≤ t) :
    (t = 0 → penetrationPct c t = none) ∧
    (∀ v, penetrationPct c t = some v → 0 ≤ v ∧ v ≤ 100) ∧
    rowPenetrationValue (penetrationPct c 0) = 0 := by
  refine ⟨?_, ?_, rfl⟩
  · intro ht
    simp [penetrationPct, ht]
  · intro v hv
    by_cases ht : t = 0
    · simp [penetrationPct, ht] at hv
    · have htq : (0 : ℚ) < (t : ℚ) := by
        exact_mod_cast Nat.pos_of_ne_zero ht
      simp only [penetrationPct, ht, if_false] at hv
      have hx0 : (0 : ℚ) ≤ (c : ℚ) * 100 / (t : ℚ) := by positivity
      have hx100 : (c : ℚ) * 100 / (t : ℚ) ≤ ((100 : ℕ) : ℚ) := by
        rw [div_le_iff₀ htq]
        have hcq : (c : ℚ) ≤ (t : ℚ) := by exact_mod_cast hct
        push_cast
        nlinarith
      have h1 := sqlRound_nonneg 1 _ hx0
      have h2 := sqlRound_le_natCast 1 _ 100 hx0 hx100
      rw [Option.some_inj] at hv
      subst hv
      exact ⟨h1, by exact_mod_cast h2⟩

/-- Witness for C5 (amended) at `count = 1, total = 2`. -/
theorem C5_amended_witness :
    ((2 : Nat) = 0 → penetrationPct 1 2 = none) ∧
    (∀ v, penetrationPct 1 2 = some v → 0 ≤ v ∧ v ≤ 100) ∧
    rowPenetrationValue (penetrationPct 1 0) = 0 :=
  C5_amended 1 2 (by decide)

/-! ## Claim C6: empty-result behaviour -/

/-- A dataset with one row whose ingredient does not match "matcha". -/
def c6db : List IngredientRow :=
  [⟨1, "basil", some "Salads", 2024, none, "recipe"⟩]

/-- C6, counterexample: for an ingredient with zero matching rows,
`get_category_analysis` raises HTTP 404
(`if not dist_result["rows"] or not pen_result["rows"]`), so not every
endpoint returns 200 on such inputs. -/
theorem C6_counterexample :
    categoryAnalysisHttpStatus c6db "matcha" = 404 ∧ (404 : Nat) ≠ 200 := by
  refine ⟨rfl, by decide⟩

theorem matchingCategories_eq_nil (db : List IngredientRow) (ingredient : String)
    (h : ∀ r ∈ db, matchesIngredient r ingredient = false) :
    matchingCategories db ingredient = [] := by
  unfold matchingCategories
  have hfil : db.filter
      (fun r => matchesIngredient r ingredient && r.generalCategory.isSome) = [] := by
    rw [List.filter_eq_nil_iff]
    intro r hr
    simp [h r hr]
  rw [hfil]
  rfl

/-- C6 (amended): an ingredient with zero matching rows is not an error
for `/category-penetration`, which returns HTTP 200 with an empty
category list; but `/category/analysis` raises HTTP 404 on the same
input, so the claim's "every endpoint" fails. -/
theorem C6_amended (db : List IngredientRow) (ingredient : String) (cy : Int)
    (h : ∀ r ∈ db, matchesIngredient r ingredient = false) :
    categoryPenetrationHttp db ingredient cy = (200, []) ∧
    categoryAnalysisHttpStatus db ingredient = 404 := by
  have hmc := matchingCategories_eq_nil db ingredient h
  constructor
  · unfold categoryPenetrationHttp categoryPenetrationResult
    rw [hmc]
    rfl
  · unfold categoryAnalysisHttpStatus
    rw [hmc]
    rfl

/-- Witness for C6 (amended) on `c6db` with ingredient "matcha". -/
theorem C6_amended_witness :
    categoryPenetrationHttp c6db "matcha" 2024 = (200, []) ∧
    categoryAnalysisHttpStatus c6db "matcha" = 404 :=
  C6_amended c6db "matcha" 2024 (by decide)

/-! ## Claim C7: enumerated-parameter validation -/

/-- C7, counterexample: `"lifecycle_phase"` is not a key of
`sort_mapping`, yet `get_ingredient_pairings` resolves it via
`sort_mapping.get(sort_by, "gc.share_percentage")` to the default sort
column — the same column as the valid value `"share_percent"` — and
proceeds without any 400 error, silently substituting a default. -/
theorem C7_counterexample :
    sortMapping.lookup "lifecycle_phase" = none ∧
    pairingsSortColumn "lifecycle_phase" = "gc.share_percentage" ∧
    pairingsSortColumn "lifecycle_phase" = pairingsSortColumn "share_percent" := by
  refine ⟨rfl, rfl, rfl⟩

/-- C7 (amended): an invalid `source` for `/phase` is rejected with a
400 whose message names the accepted values `recipe` and `menu`; but an
unknown `sort_by` for `/pairings` is silently mapped to the default
column `gc.share_percentage` with no error. -/
theorem C7_amended (source sortBy : String)
    (hs1 : source ≠ "recipe") (hs2 : source ≠ "menu")
    (hsort : sortMapping.lookup sortBy = none) :
    phaseSourceCheck source = some (400, "Source must be 'recipe' or 'menu'") ∧
    pairingsSortColumn sortBy = "gc.share_percentage" := by
  constructor
  · simp [phaseSourceCheck, hs1, hs2]
  · simp [pairingsSortColumn, hsort]

/-- Witness for C7 (amended) at `source = "social"`,
`sort_by = "bogus"`. -/
theorem C7_amended_witness :
    phaseSourceCheck "social" = some (400, "Source must be 'recipe' or 'menu'") ∧
    pairingsSortColumn "bogus" = "gc.share_percentage" :=
  C7_amended "social" "bogus" (by decide) (by decide) rfl

/-! ## Claim C8: cache lookup/store semantics -/

theorem lookup_cacheStore {Row : Type} (c : List (String × CacheEntry Row))
    (k : String) (e : CacheEntry Row) : (cacheStore c k e).lookup k = some e := by
  simp [cacheStore, List.lookup]

/-- C8: with caching enabled for a cacheable query, a fresh cache entry
(`now - timestamp < ttl`) is returned without executing the engine and
without touching state; otherwise a stale entry is deleted, the query
runs once, and the fresh result is stored under the key with the current
timestamp; consequently, repeating the identical request within the TTL
window against an unchanged engine returns the same result with no
engine execution. -/
theorem C8_cache_semantics {Row : Type}
    (engine : String → List String → Except String (List Row))
    (rows : List Row) (s : DBState Row) (query : String) (params : List String)
    (ttl t1 t2 : Int) (hok : engine query params = Except.ok rows) :
    (∀ entry, s.cache.lookup (generateCacheKey query params) = some entry →
      (t1 - entry.timestamp < ttl →
        executeQuery true engine t1 query params true ttl s
          = ⟨Except.ok entry.data, s, 0⟩) ∧
      (¬ t1 - entry.timestamp < ttl →
        executeQuery true engine t1 query params true ttl s
          = ⟨Except.ok ⟨rows, rows.length⟩,
             ⟨some (),
              cacheStore (cacheDelete s.cache (generateCacheKey query params))
                (generateCacheKey query params) ⟨⟨rows, rows.length⟩, t1⟩⟩, 1⟩)) ∧
    (s.cache.lookup (generateCacheKey query params) = none →
      executeQuery true engine t1 query params true ttl s
        = ⟨Except.ok ⟨rows, rows.length⟩,
           ⟨some (), cacheStore s.cache (generateCacheKey query params)
              ⟨⟨rows, rows.length⟩, t1⟩⟩, 1⟩ ∧
      (t2 - t1 < ttl →
        (executeQuery true engine t2 query params true ttl
            (executeQuery true engine t1 query params true ttl s).state).result
          = (executeQuery true engine t1 query params true ttl s).result ∧
        (executeQuery true engine t2 query params true ttl
            (executeQuery true engine t1 query params true ttl s).state).engineCalls
          = 0)) := by
  constructor
  · intro entry hlookup
    constructor
    · intro hvalid
      simp [executeQuery, hlookup, isCacheValid, hvalid]
    · intro hstale
      simp [executeQuery, hlookup, isCacheValid, hstale, runQueryFresh, hok,
        cacheDelete]
  · intro hmiss
    have hfirst : executeQuery true engine t1 query params true ttl s
        = ⟨Except.ok ⟨rows, rows.length⟩,
           ⟨some (), cacheStore s.cache (generateCacheKey query params)
              ⟨⟨rows, rows.length⟩, t1⟩⟩, 1⟩ := by
      simp [executeQuery, hmiss, runQueryFresh, hok]
    refine ⟨hfirst, ?_⟩
    intro hwin
    rw [hfirst]
    have hlookup2 : (cacheStore s.cache (generateCacheKey query params)
        ⟨⟨rows, rows.length⟩, t1⟩).lookup (generateCacheKey query params)
        = some ⟨⟨rows, rows.length⟩, t1⟩ := lookup_cacheStore _ _ _
    constructor
    · simp [executeQuery, hlookup2, isCacheValid, hwin]
    · simp [executeQuery, hlookup2, isCacheValid, hwin]

/-- Witness for C8 on a one-row engine: first call on an empty cache
executes and stores; the second call 5 ms later (ttl 10 ms) performs no
engine execution. -/
theorem C8_cache_semantics_witness :
    executeQuery true (fun _ _ => Except.ok ([7] : List Nat)) 0 "q" [] true 10
        ⟨none, []⟩
      = ⟨Except.ok ⟨[7], [7].length⟩,
         ⟨some (), cacheStore [] (generateCacheKey "q" [])
            ⟨⟨[7], [7].length⟩, 0⟩⟩, 1⟩ ∧
    (executeQuery true (fun _ _ => Except.ok ([7] : List Nat)) 5 "q" [] true 10
        (executeQuery true (fun _ _ => Except.ok ([7] : List Nat)) 0 "q" [] true 10
          ⟨none, []⟩).state).engineCalls = 0 :=
  ⟨((C8_cache_semantics (fun _ _ => Except.ok [7]) [7] ⟨none, []⟩ "q" [] 10 0 5
      rfl).2 rfl).1,
   ((((C8_cache_semantics (fun _ _ => Except.ok [7]) [7] ⟨none, []⟩ "q" [] 10 0 5
      rfl).2 rfl).2) (by decide)).2⟩

/-! ## Claim C9: behaviour on query execution errors -/

/-- C9, counterexample: after a failing execution the connection handle
is left as it was (`some ()`), not reset to `none` — the `except` block
of `execute_query` only logs and re-raises, so a future call will reuse
the same connection rather than re-establish one; the propagated error
is the engine's error unchanged, with no query/parameter context
attached to it. -/
theorem C9_counterexample :
    (executeQuery true (fun _ _ => Except.error "boom") 0 "q" ([] : List String)
        true 10 (⟨some (), []⟩ : DBState Nat)).result = Except.error "boom" ∧
    (executeQuery true (fun _ _ => Except.error "boom") 0 "q" ([] : List String)
        true 10 (⟨some (), []⟩ : DBState Nat)).state.connection = some () ∧
    some () ≠ (none : Option Unit) := by
  refine ⟨rfl, rfl, by decide⟩

/-- C9 (amended): on an execution error the engine's error propagates
to the caller unchanged (context is only logged), the query is executed
exactly once (no retry), the connection handle is left established
(not reset), and — when the key had no cache entry — the cache is left
exactly as it was (nothing is stored on failure). -/
theorem C9_amended {Row : Type}
    (engine : String → List String → Except String (List Row)) (e : String)
    (s : DBState Row) (query : String) (params : List String) (ttl now : Int)
    (hfail : engine query params = Except.error e)
    (hmiss : s.cache.lookup (generateCacheKey query params) = none) :
    (executeQuery true engine now query params true ttl s).result
      = Except.error e ∧
    (executeQuery true engine now query params true ttl s).engineCalls = 1 ∧
    (executeQuery true engine now query params true ttl s).state.connection
      = some () ∧
    (executeQuery true engine now query params true ttl s).state.cache
      = s.cache := by
  refine ⟨?_, ?_, ?_, ?_⟩ <;>
    simp [executeQuery, hmiss, runQueryFresh, hfail]

/-- Witness for C9 (amended) on an always-failing engine. -/
theorem C9_amended_witness :
    (executeQuery true (fun _ _ => Except.error "fail") 3 "q2" ([] : List String)
        true 10 (⟨some (), []⟩ : DBState Nat)).result = Except.error "fail" ∧
    (executeQuery true (fun _ _ => Except.error "fail") 3 "q2" ([] : List String)
        true 10 (⟨some (), []⟩ : DBState Nat)).engineCalls = 1 ∧
    (executeQuery true (fun _ _ => Except.error "fail") 3 "q2" ([] : List String)
        true 10 (⟨some (), []⟩ : DBState Nat)).state.connection = some () ∧
    (executeQuery true (fun _ _ => Except.error "fail") 3 "q2" ([] : List String)
        true 10 (⟨some (), []⟩ : DBState Nat)).state.cache = [] :=
  C9_amended (fun _ _ => Except.error "fail") "fail" ⟨some (), []⟩ "q2" [] 10 3
    rfl rfl

/-! ## Claim C10: seasonal distribution shape -/

theorem sqlRound_zero (d : Nat) : sqlRound d 0 = 0 := by
  have h := sqlRound_natCast d 0
  simpa using h

/-- C10: for every dataset and ingredient, the distribution built by
`get_season_distribution` has exactly 5 entries named Spring, Summer,
Fall, Winter, All-Season in that fixed order, and a season with no
matching dishes has value 0 (seasons are never omitted). -/
theorem C10_season_distribution (db : List IngredientRow) (ingredient : String) :
    (seasonDistribution db ingredient).map Prod.fst
      = ["Spring", "Summer", "Fall", "Winter", "All-Season"] ∧
    (seasonDistribution db ingredient).length = 5 ∧
    (∀ p ∈ seasonDistribution db ingredient,
      seasonDishCount db ingredient p.1 = 0 → p.2 = 0) := by
  refine ⟨?_, ?_, ?_⟩
  · simp [seasonDistribution, seasonQueryRows, seasonNames]
  · simp [seasonDistribution, seasonQueryRows, seasonNames]
  · intro p hp h0
    simp only [seasonDistribution, seasonQueryRows, List.map_map,
      List.mem_map] at hp
    obtain ⟨name, hname, hpe⟩ := hp
    subst hpe
    simp only [Function.comp_apply] at h0 ⊢
    by_cases ht : totalSeasonedDishes db ingredient = 0
    · simp [ht]
    · simp [ht, h0, sqlRound_zero]

/-- Witness for C10 on the empty dataset. -/
theorem C10_season_distribution_witness :
    (seasonDistribution [] "matcha").map Prod.fst
      = ["Spring", "Summer", "Fall", "Winter", "All-Season"] ∧
    ((("Spring", (0 : ℚ)) : String × ℚ)).2 = 0 :=
  ⟨(C10_season_distribution [] "matcha").1,
   (C10_season_distribution [] "matcha").2.2 ("Spring", 0) (by decide) (by rfl)⟩

end Flavorlens
